import Mathlib

/-!
Verification of the TAPI Registry (lib/Core/Registry.cpp).

The Registry holds ordered lists of readers and writers and routes each
request to the first capable component.  The dispatch logic lives in
`Registry.cpp`; the `Reader`/`Writer` interfaces, `FileType`, `File` and the
LLVM support facilities (`identify_magic`, `raw_fd_ostream`) are declared
outside that file, so they are modelled here from the specification as
abstract data (readers and writers are arbitrary function records, exactly
as the dispatch code treats them).
-/

/-- Modelled from the spec: a byte buffer presented to the Registry
(`llvm::MemoryBufferRef`); the buffer is just its byte content. -/
abbrev Buffer := List Nat

/-- Modelled from the spec: the closed tag identifying the concrete format of
a `File` (declared in tapi/Core/File.h, which is not under src).  The spec
lists Invalid, the binary dylib kind, and the versioned textual kinds. -/
inductive FileType where
  | Invalid
  | MachO_DynamicLibrary
  | TBD_V1
  | TBD_V2
  | API_V1
  | Configuration_V1
deriving DecidableEq, Repr

/-- Modelled from the spec: a caller-supplied restriction to a set of
acceptable FileTypes, passed through to each reader's `canRead`. -/
abbrev FileTypes := FileType → Bool

/-- Modelled from the spec: the unrestricted FileType set (`FileType::All`),
the default argument of `Reader::canRead` declared in tapi/Core/Registry.h,
which is not under src. -/
def FileTypes.all : FileTypes := fun _ => true

/-- Modelled from the spec: an error-code value (`std::error_code`).  The
Registry builds its own error with `std::errc::not_supported`; any other code
comes from the operating system. -/
inductive ErrCode where
  | notSupported
  | osError (n : Nat)
deriving DecidableEq, Repr

/-- Modelled from the spec: the typed failure carried by `llvm::Error` /
`llvm::Expected`.  A `StringError` has a message and a code; an error-code
error wraps a bare `std::error_code` (`errorCodeToError`). -/
inductive TapiError where
  | stringError (msg : String) (code : ErrCode)
  | ecError (code : ErrCode)
deriving DecidableEq, Repr

/-- Translation of `llvm::errorCodeToError`. -/
def errorCodeToError (c : ErrCode) : TapiError := .ecError c

/-- The error the Registry itself produces when no component accepted the
input: `make_error<StringError>("unsupported file type",
std::make_error_code(std::errc::not_supported))` (Registry.cpp lines 78 and
103). -/
def unsupportedFileType : TapiError :=
  .stringError "unsupported file type" .notSupported

/-- Modelled from the spec: the coarse classification the Format Sniffer
(`llvm::identify_magic`, external to this file) assigns to a buffer. -/
inductive Magic where
  | machoDylib
  | machoUniversal
  | text
  | unknown
deriving DecidableEq, Repr

/-- Modelled from the spec: the Format Sniffer.  Recognizable Mach-O magic
numbers (thin, 64-bit and byte-order variants, and fat/universal) map to a
binary kind; an empty or truncated buffer classifies as unknown; anything
else is candidate structured text.  A pure function of the buffer content. -/
def identify_magic (data : Buffer) : Magic :=
  match data with
  | 0xfe :: 0xed :: 0xfa :: 0xce :: _ => .machoDylib
  | 0xce :: 0xfa :: 0xed :: 0xfe :: _ => .machoDylib
  | 0xfe :: 0xed :: 0xfa :: 0xcf :: _ => .machoDylib
  | 0xcf :: 0xfa :: 0xed :: 0xfe :: _ => .machoDylib
  | 0xca :: 0xfe :: 0xba :: 0xbe :: _ => .machoUniversal
  | _ :: _ :: _ :: _ :: _ => .text
  | _ => .unknown

/-- Modelled from the spec: the canonical in-memory interface model.  The
Registry itself touches only the recorded path (`file->getPath()`), the
FileType tag, and hands the whole value to writers; the symbol tables are
opaque to the dispatch logic and represented by an opaque payload. -/
structure File where
  path : String
  fileType : FileType
  payload : List Nat
deriving DecidableEq, Repr

/-- Modelled from the spec: flags selecting read depth/behavior, passed
through opaquely by the Registry. -/
abbrev ReadFlags := Nat

/-- Modelled from the spec: the requested architecture filter, passed through
opaquely by the Registry. -/
abbrev ArchitectureSet := Nat

/-- Modelled from the spec: the abstract `Reader` interface declared in
tapi/Core/Registry.h (not under src): `canRead` takes the sniffed magic, the
buffer and a FileTypes restriction; `getFileType` reports the most specific
FileType or an error; `readFile` parses the buffer into a File or fails. -/
structure Reader where
  canRead : Magic → Buffer → FileTypes → Bool
  getFileType : Magic → Buffer → Except TapiError FileType
  readFile : Buffer → ReadFlags → ArchitectureSet → Except TapiError File

/-- Modelled from the spec: the abstract `Writer` interface declared in
tapi/Core/Registry.h (not under src): `canWrite` accepts or rejects a File;
`writeFile` serializes the File, producing the bytes appended to the output
stream or a typed failure.  (Named `TapiWriter` because `Writer` is taken by
the ambient library.) -/
structure TapiWriter where
  canWrite : File → Bool
  writeFile : File → Except TapiError (List Nat)

/-- The Registry: ordered lists `_readers` and `_writers`, read-only during
dispatch. -/
structure Registry where
  readers : List Reader
  writers : List TapiWriter

/-- Translation of `Registry::canRead` (Registry.cpp lines 30-40): sniff the
magic, return true on the first reader whose `canRead` accepts, false if the
loop falls through. -/
def Registry.canRead (reg : Registry) (memBuffer : Buffer) (types : FileTypes) :
    Bool :=
  let magic := identify_magic memBuffer
  reg.readers.any fun reader => reader.canRead magic memBuffer types

/-- The loop body of `Registry::getFileType` (Registry.cpp lines 46-52): for
each reader in order, ask for the FileType; an error returns immediately
(`return fileType.takeError()`); a non-Invalid answer returns immediately;
otherwise continue.  Falls through to `FileType::Invalid`. -/
def getFileTypeGo (magic : Magic) (memBuffer : Buffer) :
    List Reader → Except TapiError FileType
  | [] => .ok FileType.Invalid
  | reader :: rest =>
    match reader.getFileType magic memBuffer with
    | .error e => .error e
    | .ok ft =>
      if ft = FileType.Invalid then getFileTypeGo magic memBuffer rest
      else .ok ft

/-- Translation of `Registry::getFileType` (Registry.cpp lines 42-55). -/
def Registry.getFileType (reg : Registry) (memBuffer : Buffer) :
    Except TapiError FileType :=
  getFileTypeGo (identify_magic memBuffer) memBuffer reg.readers

/-- Translation of `Registry::canWrite` (Registry.cpp lines 57-64). -/
def Registry.canWrite (reg : Registry) (file : File) : Bool :=
  reg.writers.any fun writer => writer.canWrite file

/-- The loop body of `Registry::readFile` (Registry.cpp lines 72-76): skip
readers whose `canRead` rejects (called with the default `FileType::All`
restriction); delegate the whole parse to the first accepting reader.  Falls
through to the "unsupported file type" error (lines 78-79). -/
def readFileGo (magic : Magic) (memBuffer : Buffer) (flags : ReadFlags)
    (arches : ArchitectureSet) : List Reader → Except TapiError File
  | [] => .error unsupportedFileType
  | reader :: rest =>
    if reader.canRead magic memBuffer FileTypes.all then
      reader.readFile memBuffer flags arches
    else
      readFileGo magic memBuffer flags arches rest

/-- Translation of `Registry::readFile` (Registry.cpp lines 66-80): sniff the
buffer's magic, then dispatch to the first accepting reader. -/
def Registry.readFile (reg : Registry) (memBuffer : Buffer) (flags : ReadFlags)
    (arches : ArchitectureSet) : Except TapiError File :=
  readFileGo (identify_magic memBuffer) memBuffer flags arches reg.readers

/-- The loop body of `Registry::writeFile(raw_ostream &, const File *)`
(Registry.cpp lines 97-101): skip writers whose `canWrite` rejects; delegate
to the first accepting writer.  Falls through to the "unsupported file type"
error (lines 103-104). -/
def writeFileGo (file : File) : List TapiWriter → Except TapiError (List Nat)
  | [] => .error unsupportedFileType
  | writer :: rest =>
    if writer.canWrite file then writer.writeFile file
    else writeFileGo file rest

/-- Translation of `Registry::writeFile(raw_ostream &, const File *)`
(Registry.cpp lines 96-105).  The returned bytes stand for the data the
chosen writer appended to the stream. -/
def Registry.writeFileStream (reg : Registry) (file : File) :
    Except TapiError (List Nat) :=
  writeFileGo file reg.writers

/-- Modelled from the spec: the behavior the file system exhibits for the one
stream the convenience write path opens on `file->getPath()`.  `openErr` is
the `std::error_code` the `raw_fd_ostream` constructor reports (none on
success, at which point the file is created/truncated); `closeErr` is the
failure, if any, that `os.close()` encounters and records in the stream's own
error state. -/
structure FS where
  openErr : Option ErrCode
  closeErr : Option ErrCode
deriving DecidableEq, Repr

/-- The observable outcome of the convenience write path: the returned
`Error`, plus whether the output file at the File's recorded path was
created/truncated by the stream open. -/
structure WriteOutcome where
  result : Except TapiError Unit
  fileOpened : Bool
deriving Repr

/-- Translation of `Registry::writeFile(const File *)` (Registry.cpp lines
82-94):

    std::error_code ec;
    raw_fd_ostream os(file->getPath(), ec, sys::fs::F_Text);
    if (ec)
      return errorCodeToError(ec);
    auto error = writeFile(os, file);
    if (error)
      return error;
    os.close();
    if (ec)
      return errorCodeToError(ec);
    return Error::success();

Opening the stream creates/truncates the file unless the open itself fails
(`fileOpened`).  `ec` is a local variable written only by the
`raw_fd_ostream` constructor; `os.close()` takes no reference to it and
records a close-time failure (`fs.closeErr`) only in the stream's internal
error state, which this code never consults.  The final `if (ec)` therefore
re-tests the open-time code, modelled by the inner match on `fs.openErr`,
which on the success path is already known to be `none`. -/
def Registry.writeFilePath (reg : Registry) (fs : FS) (file : File) :
    WriteOutcome :=
  match fs.openErr with
  | some c => { result := .error (errorCodeToError c), fileOpened := false }
  | none =>
    match reg.writeFileStream file with
    | .error e => { result := .error e, fileOpened := true }
    | .ok _ =>
      match fs.openErr with
      | some c => { result := .error (errorCodeToError c), fileOpened := true }
      | none => { result := .ok (), fileOpened := true }

/-- The document-handler schema kinds registered by the standard helpers
(Registry.cpp lines 111-133). -/
inductive DocumentHandlerKind where
  | stub_v1
  | stub_v2
  | api_v1
  | configuration_v1
deriving DecidableEq, Repr

/-- Translation of `Registry::addYAMLReaders` (Registry.cpp lines 111-122):
the document handlers added to the YAML reader, in registration order. -/
def addYAMLReadersHandlers : List DocumentHandlerKind :=
  [.stub_v1, .stub_v2, .api_v1, .configuration_v1]

/-- Translation of `Registry::addYAMLWriters` (Registry.cpp lines 124-133):
the document handlers added to the YAML writer, in registration order. -/
def addYAMLWritersHandlers : List DocumentHandlerKind :=
  [.stub_v1, .stub_v2, .api_v1]

/-! ## Dispatch lemmas shared by the claim theorems -/

/-- Readers whose `getFileType` answers `Invalid` are skipped by the
`getFileType` loop. -/
theorem getFileTypeGo_append (magic : Magic) (memBuffer : Buffer)
    (pre rest : List Reader)
    (h : ∀ r ∈ pre, r.getFileType magic memBuffer = .ok FileType.Invalid) :
    getFileTypeGo magic memBuffer (pre ++ rest) =
      getFileTypeGo magic memBuffer rest := by
  induction pre with
  | nil => rfl
  | cons a t ih =>
    have ha := h a (List.mem_cons_self a t)
    have ht : ∀ r ∈ t, r.getFileType magic memBuffer = .ok FileType.Invalid :=
      fun r hr => h r (List.mem_cons_of_mem a hr)
    simp [getFileTypeGo, ha, ih ht]

/-- Readers whose `canRead` rejects are skipped by the `readFile` loop. -/
theorem readFileGo_append (magic : Magic) (memBuffer : Buffer)
    (flags : ReadFlags) (arches : ArchitectureSet) (pre rest : List Reader)
    (h : ∀ r ∈ pre, r.canRead magic memBuffer FileTypes.all = false) :
    readFileGo magic memBuffer flags arches (pre ++ rest) =
      readFileGo magic memBuffer flags arches rest := by
  induction pre with
  | nil => rfl
  | cons a t ih =>
    have ha := h a (List.mem_cons_self a t)
    have ht : ∀ r ∈ t, r.canRead magic memBuffer FileTypes.all = false :=
      fun r hr => h r (List.mem_cons_of_mem a hr)
    simp [readFileGo, ha, ih ht]

/-- Writers whose `canWrite` rejects are skipped by the stream `writeFile`
loop. -/
theorem writeFileGo_append (file : File) (pre rest : List TapiWriter)
    (h : ∀ w ∈ pre, w.canWrite file = false) :
    writeFileGo file (pre ++ rest) = writeFileGo file rest := by
  induction pre with
  | nil => rfl
  | cons a t ih =>
    have ha := h a (List.mem_cons_self a t)
    have ht : ∀ w ∈ t, w.canWrite file = false :=
      fun w hw => h w (List.mem_cons_of_mem a hw)
    simp [writeFileGo, ha, ih ht]

/-- Evaluation of `readFile` when no reader accepts. -/
theorem readFile_none_accept (reg : Registry) (memBuffer : Buffer)
    (flags : ReadFlags) (arches : ArchitectureSet)
    (h : ∀ r ∈ reg.readers,
      r.canRead (identify_magic memBuffer) memBuffer FileTypes.all = false) :
    reg.readFile memBuffer flags arches = .error unsupportedFileType := by
  have := readFileGo_append (identify_magic memBuffer) memBuffer flags arches
    reg.readers [] h
  simpa [Registry.readFile, readFileGo] using this

/-- Evaluation of the stream `writeFile` when no writer accepts. -/
theorem writeFileStream_none_accept (reg : Registry) (file : File)
    (h : ∀ w ∈ reg.writers, w.canWrite file = false) :
    reg.writeFileStream file = .error unsupportedFileType := by
  have := writeFileGo_append file reg.writers [] h
  simpa [Registry.writeFileStream, writeFileGo] using this

/-! ## Concrete components used by the witnesses -/

/-- A concrete File used in witnesses. -/
def file0 : File := { path := "out.tbd", fileType := FileType.TBD_V2, payload := [7, 7] }

/-- A concrete buffer used in witnesses. -/
def buf0 : Buffer := [1, 2, 3, 4]

/-- A reader that rejects every buffer and classifies everything Invalid. -/
def rdReject : Reader where
  canRead := fun _ _ _ => false
  getFileType := fun _ _ => .ok FileType.Invalid
  readFile := fun _ _ _ => .error (.stringError "reject" (.osError 1))

/-- A reader that accepts every buffer and classifies it as TBD v1. -/
def rdTBD : Reader where
  canRead := fun _ _ _ => true
  getFileType := fun _ _ => .ok FileType.TBD_V1
  readFile := fun _ _ _ => .ok file0

/-- A reader whose own inspection fails, as on a corrupt header. -/
def rdCorrupt : Reader where
  canRead := fun _ _ _ => true
  getFileType := fun _ _ => .error (.stringError "corrupt header" (.osError 2))
  readFile := fun _ _ _ => .error (.stringError "corrupt header" (.osError 2))

/-- A writer that rejects every File. -/
def wReject : TapiWriter where
  canWrite := fun _ => false
  writeFile := fun _ => .error (.stringError "never" (.osError 3))

/-- A writer that accepts every File and writes its payload. -/
def wOk : TapiWriter where
  canWrite := fun _ => true
  writeFile := fun f => .ok f.payload

/-- A registry whose second reader is the accepting one. -/
def regRead : Registry := { readers := [rdReject, rdTBD], writers := [] }

/-- A registry whose second reader errors on inspection. -/
def regCorrupt : Registry := { readers := [rdReject, rdCorrupt], writers := [] }

/-- A registry in which no component accepts anything. -/
def regReject : Registry := { readers := [rdReject], writers := [wReject] }

/-- A registry whose second writer is the accepting one. -/
def regWrite : Registry := { readers := [], writers := [wReject, wOk] }

/-- Two registries sharing the same reader list but different writer lists. -/
def regDet1 : Registry := { readers := [rdTBD], writers := [] }

/-- Companion registry to `regDet1` with the same readers. -/
def regDet2 : Registry := { readers := [rdTBD], writers := [wOk] }

/-- A registry with one always-accepting, always-succeeding writer. -/
def regWOk : Registry := { readers := [], writers := [wOk] }

/-- A file system on which open and close both succeed. -/
def fsOk : FS := { openErr := none, closeErr := none }

/-- A file system on which open succeeds but close fails. -/
def fsCloseFail : FS := { openErr := none, closeErr := some (.osError 5) }

/-! ## Claim theorems -/

/-- C1: evaluation of the convenience write path at an input where the open
succeeds, the chosen writer succeeds, and the close fails.  The claim says
the close-time error must be surfaced; the code returns success, because the
final `if (ec)` re-tests the open-time error code, which `os.close()` never
modifies.  The close-time failure is silently dropped. -/
theorem writeFilePath_drops_close_error :
    fsCloseFail.closeErr = some (ErrCode.osError 5) ∧
    Registry.writeFileStream regWOk file0 = .ok file0.payload ∧
    Registry.writeFilePath regWOk fsCloseFail file0 =
      { result := .ok (), fileOpened := true } :=
  ⟨rfl, rfl, rfl⟩

/-- C2: the Registry propagates a component's error value unchanged — a
reader's failing `getFileType` inspection, an accepted reader's failing
`readFile`, and an accepted writer's failing `writeFile` are each returned
verbatim — and the Registry produces its own "unsupported file type" error
exactly when no component accepted the input. -/
theorem registry_propagates_component_errors (reg : Registry) (buf : Buffer)
    (flags : ReadFlags) (arches : ArchitectureSet) (file : File) :
    (∀ pre rd post e, reg.readers = pre ++ rd :: post →
      (∀ r ∈ pre,
        r.getFileType (identify_magic buf) buf = .ok FileType.Invalid) →
      rd.getFileType (identify_magic buf) buf = .error e →
      reg.getFileType buf = .error e) ∧
    (∀ pre rd post e, reg.readers = pre ++ rd :: post →
      (∀ r ∈ pre, r.canRead (identify_magic buf) buf FileTypes.all = false) →
      rd.canRead (identify_magic buf) buf FileTypes.all = true →
      rd.readFile buf flags arches = .error e →
      reg.readFile buf flags arches = .error e) ∧
    (∀ pre w post e, reg.writers = pre ++ w :: post →
      (∀ x ∈ pre, x.canWrite file = false) →
      w.canWrite file = true →
      w.writeFile file = .error e →
      reg.writeFileStream file = .error e) ∧
    ((∀ r ∈ reg.readers,
        r.canRead (identify_magic buf) buf FileTypes.all = false) →
      reg.readFile buf flags arches = .error unsupportedFileType) ∧
    ((∀ w ∈ reg.writers, w.canWrite file = false) →
      reg.writeFileStream file = .error unsupportedFileType) := by
  refine ⟨?_, ?_, ?_, ?_, ?_⟩
  · intro pre rd post e hsplit hpre he
    unfold Registry.getFileType
    rw [hsplit, getFileTypeGo_append _ _ _ _ hpre]
    simp [getFileTypeGo, he]
  · intro pre rd post e hsplit hpre hacc he
    unfold Registry.readFile
    rw [hsplit, readFileGo_append _ _ _ _ _ _ hpre]
    simp [readFileGo, hacc, he]
  · intro pre w post e hsplit hpre hacc he
    unfold Registry.writeFileStream
    rw [hsplit, writeFileGo_append _ _ _ hpre]
    simp [writeFileGo, hacc, he]
  · exact readFile_none_accept reg buf flags arches
  · exact writeFileStream_none_accept reg file

/-- Witness for C2: a registry whose second reader fails inspection with a
"corrupt header" error; `getFileType` returns that error verbatim. -/
theorem registry_propagates_component_errors_witness :
    Registry.getFileType regCorrupt buf0 =
      .error (TapiError.stringError "corrupt header" (ErrCode.osError 2)) :=
  (registry_propagates_component_errors regCorrupt buf0 0 0 file0).1
    [rdReject] rdCorrupt [] _ rfl
    (by intro r hr; simp at hr; subst hr; rfl) rfl

/-- C3: `readFile` sniffs the buffer's magic, iterates the readers in
registration order, and delegates the entire parse to the first reader whose
`canRead` accepts; its result (success or failure) is the Registry's result,
so no later reader is consulted even if the chosen reader's parse fails. -/
theorem readFile_first_accepting_reader (reg : Registry) (buf : Buffer)
    (flags : ReadFlags) (arches : ArchitectureSet)
    (pre : List Reader) (rd : Reader) (post : List Reader)
    (hsplit : reg.readers = pre ++ rd :: post)
    (hpre : ∀ r ∈ pre, r.canRead (identify_magic buf) buf FileTypes.all = false)
    (hrd : rd.canRead (identify_magic buf) buf FileTypes.all = true) :
    reg.readFile buf flags arches = rd.readFile buf flags arches := by
  unfold Registry.readFile
  rw [hsplit, readFileGo_append _ _ _ _ _ _ hpre]
  simp [readFileGo, hrd]

/-- Witness for C3: with a rejecting reader registered before an accepting
one, the accepting reader handles the buffer. -/
theorem readFile_first_accepting_reader_witness :
    Registry.readFile regRead buf0 0 0 = rdTBD.readFile buf0 0 0 :=
  readFile_first_accepting_reader regRead buf0 0 0 [rdReject] rdTBD [] rfl
    (by intro r hr; simp at hr; subst hr; rfl) rfl

/-- C4: `getFileType` queries the readers in registration order: past any
prefix of readers answering Invalid, an error from the next reader is
returned (no later reader decides the result), a non-Invalid answer from the
next reader is returned, and if every reader answers Invalid the result is
`FileType.Invalid`. -/
theorem getFileType_first_nonInvalid (reg : Registry) (buf : Buffer) :
    (∀ pre rd post, reg.readers = pre ++ rd :: post →
      (∀ r ∈ pre,
        r.getFileType (identify_magic buf) buf = .ok FileType.Invalid) →
      ((∀ e, rd.getFileType (identify_magic buf) buf = .error e →
          reg.getFileType buf = .error e) ∧
       (∀ ft, rd.getFileType (identify_magic buf) buf = .ok ft →
          ft ≠ FileType.Invalid → reg.getFileType buf = .ok ft))) ∧
    ((∀ r ∈ reg.readers,
        r.getFileType (identify_magic buf) buf = .ok FileType.Invalid) →
      reg.getFileType buf = .ok FileType.Invalid) := by
  constructor
  · intro pre rd post hsplit hpre
    constructor
    · intro e he
      unfold Registry.getFileType
      rw [hsplit, getFileTypeGo_append _ _ _ _ hpre]
      simp [getFileTypeGo, he]
    · intro ft hft hne
      unfold Registry.getFileType
      rw [hsplit, getFileTypeGo_append _ _ _ _ hpre]
      simp [getFileTypeGo, hft, hne]
  · intro h
    have := getFileTypeGo_append (identify_magic buf) buf reg.readers [] h
    simpa [Registry.getFileType, getFileTypeGo] using this

/-- Witness for C4: past a reader answering Invalid, the first non-Invalid
answer (TBD v1) is returned. -/
theorem getFileType_first_nonInvalid_witness :
    Registry.getFileType regRead buf0 = .ok FileType.TBD_V1 :=
  ((getFileType_first_nonInvalid regRead buf0).1 [rdReject] rdTBD [] rfl
    (by intro r hr; simp at hr; subst hr; rfl)).2 FileType.TBD_V1 rfl
    (by decide)

/-- C5: on a buffer that no registered reader accepts, `readFile` fails with
the "unsupported file type" error and `canRead` returns false. -/
theorem unsupported_buffer_rejected (reg : Registry) (buf : Buffer)
    (flags : ReadFlags) (arches : ArchitectureSet)
    (h : ∀ r ∈ reg.readers,
      r.canRead (identify_magic buf) buf FileTypes.all = false) :
    reg.readFile buf flags arches = .error unsupportedFileType ∧
    reg.canRead buf FileTypes.all = false := by
  constructor
  · exact readFile_none_accept reg buf flags arches h
  · simp only [Registry.canRead, List.any_eq_false]
    intro r hr
    simp [h r hr]

/-- Witness for C5: the registry holding only the rejecting reader refuses a
concrete buffer. -/
theorem unsupported_buffer_rejected_witness :
    Registry.readFile regReject buf0 0 0 = .error unsupportedFileType ∧
    Registry.canRead regReject buf0 FileTypes.all = false :=
  unsupported_buffer_rejected regReject buf0 0 0
    (by intro r hr; simp [regReject] at hr; subst hr; rfl)

/-- C6: `canRead(buffer, types)` is true exactly when some registered reader
accepts the sniffed magic kind and the buffer content under that same
FileTypes restriction. -/
theorem canRead_iff_some_reader_accepts (reg : Registry) (buf : Buffer)
    (types : FileTypes) :
    reg.canRead buf types = true ↔
      ∃ r ∈ reg.readers,
        r.canRead (identify_magic buf) buf types = true := by
  simp [Registry.canRead, List.any_eq_true]

/-- C7: `canWrite` is true exactly when some registered writer accepts the
File; the stream `writeFile` iterates the writers in registration order,
delegates to the first writer whose `canWrite` accepts, and fails with the
"unsupported file type" error when no writer accepts. -/
theorem canWrite_writeFile_dispatch (reg : Registry) (file : File) :
    (reg.canWrite file = true ↔
      ∃ w ∈ reg.writers, w.canWrite file = true) ∧
    (∀ pre w post, reg.writers = pre ++ w :: post →
      (∀ x ∈ pre, x.canWrite file = false) → w.canWrite file = true →
      reg.writeFileStream file = w.writeFile file) ∧
    ((∀ w ∈ reg.writers, w.canWrite file = false) →
      reg.writeFileStream file = .error unsupportedFileType) := by
  refine ⟨?_, ?_, ?_⟩
  · simp [Registry.canWrite, List.any_eq_true]
  · intro pre w post hsplit hpre hw
    unfold Registry.writeFileStream
    rw [hsplit, writeFileGo_append _ _ _ hpre]
    simp [writeFileGo, hw]
  · exact writeFileStream_none_accept reg file

/-- Witness for C7: with a rejecting writer registered before an accepting
one, the accepting writer handles the File. -/
theorem canWrite_writeFile_dispatch_witness :
    Registry.writeFileStream regWrite file0 = wOk.writeFile file0 :=
  (canWrite_writeFile_dispatch regWrite file0).2.1 [wReject] wOk [] rfl
    (by intro x hx; simp at hx; subst hx; rfl) rfl

/-- C8: `getFileType` is a pure function of the reader list and the buffer,
so two calls on the same buffer against registries with the same reader list
return the same result. -/
theorem getFileType_deterministic (reg1 reg2 : Registry) (buf : Buffer)
    (h : reg1.readers = reg2.readers) :
    reg1.getFileType buf = reg2.getFileType buf := by
  unfold Registry.getFileType
  rw [h]

/-- Witness for C8: two registries with the same readers but different
writers classify a concrete buffer identically. -/
theorem getFileType_deterministic_witness :
    Registry.getFileType regDet1 buf0 = Registry.getFileType regDet2 buf0 :=
  getFileType_deterministic regDet1 regDet2 buf0 rfl

/-- C9: when the stream open succeeds but no registered writer accepts the
File, the convenience write path returns the "unsupported file type" error
with the output file already created/truncated — the open happens before any
writer is consulted. -/
theorem writeFilePath_unsupported_after_open (reg : Registry) (fs : FS)
    (file : File) (hopen : fs.openErr = none)
    (hw : ∀ w ∈ reg.writers, w.canWrite file = false) :
    reg.writeFilePath fs file =
      { result := .error unsupportedFileType, fileOpened := true } := by
  have hs := writeFileStream_none_accept reg file hw
  simp [Registry.writeFilePath, hopen, hs]

/-- Witness for C9: the rejecting registry with a healthy file system leaves
the output file opened while reporting the unsupported-file-type error. -/
theorem writeFilePath_unsupported_after_open_witness :
    Registry.writeFilePath regReject fsOk file0 =
      { result := .error unsupportedFileType, fileOpened := true } :=
  writeFilePath_unsupported_after_open regReject fsOk file0 rfl
    (by intro w hw; simp [regReject] at hw; subst hw; rfl)

/-- C10: the standard helpers register the configuration-v1 document handler
for reading (after stub v1, stub v2 and api v1, in that order) but not for
writing, whose handler list is exactly stub v1, stub v2, api v1. -/
theorem yaml_configuration_handler_read_only :
    addYAMLReadersHandlers =
      [.stub_v1, .stub_v2, .api_v1, .configuration_v1] ∧
    addYAMLWritersHandlers = [.stub_v1, .stub_v2, .api_v1] ∧
    DocumentHandlerKind.configuration_v1 ∈ addYAMLReadersHandlers ∧
    DocumentHandlerKind.configuration_v1 ∉ addYAMLWritersHandlers :=
  ⟨rfl, rfl, by decide, by decide⟩
